import Mathlib

/-!
Shallow embedding of the AVR TWI driver (src/I2CDriver/I2CDriver.cpp,
I2CDriver.hpp) for verification of its natural-language specification.

Modelling conventions:
* C enums become Lean inductives with the source constructor names.
* The `static` module variables form a state record (`MasterState` for the
  `I2C_MODE == MODE_MASTER` build, `SlaveState` for the slave build).
* `uint8_t` counters are `Nat` with an explicit `% 256` at each increment.
* Hardware register writes (TWCR / TWDR) are emitted as an explicit list of
  `BusAction`s per interrupt; a `BusAction` stands for the exact register
  value the macro writes, so macros writing the same value map to the same
  constructor (`twi_releaseBus` writes TWEN|TWIE|TWEA|TWINT, the same TWCR
  value as `REQUEST_SEND_WITH_ACK`, hence both are `continueAck`).
* Writes through the buffer pointers (`masterReceivedBuffer[i] = TWDR`,
  `slaveBuffer[i] = TWDR`) are recorded in append-only logs of
  (index, value) pairs, which models the raw pointer stores without
  assuming the target array is large enough.
* The slave receive callback invocation is recorded as a log of the
  `nbBytes` argument it is called with.
* The interrupt handler `ISR(TWI_vect)` becomes a step function from the
  hardware status code (`TWSR & 0xF8`) and the current TWDR value to the
  next state plus emitted bus actions; the C `switch` becomes a cascade of
  mutually exclusive equality tests on the status code.
-/

namespace I2CDriver

/-! ## Definitions (shallow embedding of the source) -/

/-- `tI2CDriverError` from I2CDriver.hpp. -/
inductive tI2CDriverError where
  | I2C_OK
  | I2C_MISSING_ACK
  | I2C_LOST_ARBITRATION
  | I2C_BUS_ERROR
deriving DecidableEq, Repr

/-- `tI2CDriverState` from I2CDriver.hpp. -/
inductive tI2CDriverState where
  | I2C_READY
  | I2C_MASTER_TRANSMIT
  | I2C_MASTER_RECEIVE
  | I2C_SLAVE_RECEIVE
  | I2C_SLAVE_TRANSMIT
deriving DecidableEq, Repr

/-- `tI2CTypeOfCommunication` from I2CDriver.hpp. -/
inductive tI2CTypeOfCommunication where
  | MASTER_SEND
  | MASTER_RECEIVED
  | SLAVE_SEND
  | SLAVE_RECEIVED
deriving DecidableEq, Repr

/-- One hardware register write performed by the driver.  Each constructor
corresponds to one macro of I2CDriver.cpp (the exact register value is given
in the comment). -/
inductive BusAction where
  /-- `TWDR = b` (address or data byte handed to the hardware). -/
  | writeTWDR (b : Nat)
  /-- `SEND_START_CONDITION()`: TWCR = TWINT|TWEA|TWEN|TWIE|TWSTA. -/
  | startCond
  /-- `SEND_STOP_CONDITION()`: TWCR = TWEN|TWIE|TWEA|TWINT|TWSTO. -/
  | stopCond
  /-- TWCR = TWEN|TWIE|TWEA|TWINT: `REQUEST_SEND_WITH_ACK()`,
  `REQUEST_RECEIVE_WITH_ACK()` and the TWCR write of `twi_releaseBus`. -/
  | continueAck
  /-- TWCR = TWEN|TWIE|TWINT: `REQUEST_SEND_WITHOUT_ACK()` /
  `REQUEST_RECEIVE_WITHOUT_ACK()` (TWEA cleared). -/
  | continueNack
  /-- `ENABLE_I2C()`: TWCR = TWEN|TWIE|TWEA (no TWINT). -/
  | enableOnly
deriving DecidableEq, Repr

/-- The module-level `static` variables of the `MODE_MASTER` build of
I2CDriver.cpp.  `masterReceivedBuffer` is a raw pointer in the source;
stores through it are modelled by the `receivedWrites` log. -/
structure MasterState where
  typeOfCommunication : tI2CTypeOfCommunication
  driverState : tI2CDriverState
  /-- Contents the caller-owned buffer `i2cBuffer` points at. -/
  i2cBuffer : List Nat
  /-- `uint8_t i2cAddress` (address byte with direction bit). -/
  i2cAddress : Nat
  /-- `uint8_t dataPointer` (the cursor). -/
  dataPointer : Nat
  /-- `uint8_t nbDataToSend` (the length). -/
  nbDataToSend : Nat
  /-- Log of `masterReceivedBuffer[i] = TWDR` stores as (index, value). -/
  receivedWrites : List (Nat × Nat)
  lastRequestStatus : tI2CDriverError
deriving DecidableEq, Repr

/-- State right after `I2CDriver::initialisation`: `driverState = I2C_READY`,
every other static variable still has its C zero-initialisation. -/
def initState : MasterState :=
  { typeOfCommunication := .MASTER_SEND
    driverState := .I2C_READY
    i2cBuffer := []
    i2cAddress := 0
    dataPointer := 0
    nbDataToSend := 0
    receivedWrites := []
    lastRequestStatus := .I2C_OK }

/-- Result of a facade call: the new driver state, the bus actions the call
performed, and the `uint8_t` return value. -/
structure FacadeResult where
  state : MasterState
  actions : List BusAction
  ret : Nat
deriving DecidableEq, Repr

/-- `I2CDriver::sendTo` (I2CDriver.cpp lines 176-196).  Copies the uint8_t
truncations explicitly: `i2cAddress = address << 1` and the `length`
parameter are 8-bit. -/
def sendTo (s : MasterState) (address : Nat) (data : List Nat)
    (length : Nat) : FacadeResult :=
  if s.driverState = .I2C_READY then
    { state :=
        { s with
          typeOfCommunication := .MASTER_SEND
          driverState := .I2C_MASTER_TRANSMIT
          dataPointer := 0
          nbDataToSend := length % 256
          i2cAddress := address * 2 % 256
          i2cBuffer := data }
      actions := [.startCond]
      ret := 0 }
  else
    { state := s, actions := [], ret := 0 }

/-- `I2CDriver::readFrom` (I2CDriver.cpp lines 207-229).
`i2cAddress = (address << 1) + 1`; `masterReceivedBuffer = data` is the
pointer whose stores the `receivedWrites` log records. -/
def readFrom (s : MasterState) (address : Nat) (data : List Nat)
    (length : Nat) : FacadeResult :=
  if s.driverState = .I2C_READY then
    { state :=
        { s with
          typeOfCommunication := .MASTER_RECEIVED
          driverState := .I2C_MASTER_TRANSMIT
          dataPointer := 0
          nbDataToSend := length % 256
          i2cAddress := (address * 2 + 1) % 256
          i2cBuffer := data }
      actions := [.startCond]
      ret := 0 }
  else
    { state := s, actions := [], ret := 0 }

/-- The `MODE_MASTER` branch of `ISR(TWI_vect)` (I2CDriver.cpp lines
253-347): one interrupt, dispatching on `TWSR & 0xF8` with the current TWDR
value as input.  A status code matching no `case` label falls through the
`switch` and does nothing. -/
def masterStep (s : MasterState) (status twdr : Nat) :
    MasterState × List BusAction :=
  -- MASTER_START_TRANSMISSION_DONE_08 / MASTER_REPEATED_START_..._10
  if status = 0x08 ∨ status = 0x10 then
    (s, [.writeTWDR s.i2cAddress, .continueAck])
  -- MS_STARTBIT_TRANSMITTED_AND_ACK_RECEIVED_18 / MS_DATA_..._ACK_..._28
  else if status = 0x18 ∨ status = 0x28 then
    if s.dataPointer < s.nbDataToSend then
      ({ s with dataPointer := (s.dataPointer + 1) % 256 },
       [.writeTWDR (s.i2cBuffer.getD s.dataPointer 0), .continueAck])
    else
      ({ s with driverState := .I2C_READY }, [.stopCond])
  -- MS_STARTBIT_TRANSMITTED_AND_NO_ACK_RECEIVED_20
  else if status = 0x20 then
    ({ s with lastRequestStatus := .I2C_MISSING_ACK,
              driverState := .I2C_READY }, [.stopCond])
  -- MS_DATA_TRANSMITTED_NO_ACK_RECEIVED_30
  else if status = 0x30 then
    ({ s with lastRequestStatus := .I2C_MISSING_ACK,
              driverState := .I2C_READY }, [.stopCond])
  -- MR_STARTBIT_TRANSMITED_AND_ACK_RECEIVED_40
  -- C guard `dataPointer < nbDataToSend-1` is int arithmetic, rendered as
  -- `dataPointer + 1 < nbDataToSend` (false for nbDataToSend = 0).
  else if status = 0x40 then
    if s.dataPointer + 1 < s.nbDataToSend then (s, [.continueAck])
    else (s, [.continueNack])
  -- MR_DATA_RECEIVED_ACK_RETURN_50: store, post-increment, then the same
  -- look-ahead guard on the incremented cursor.
  else if status = 0x50 then
    let s1 := { s with
      receivedWrites := s.receivedWrites ++ [(s.dataPointer, twdr)],
      dataPointer := (s.dataPointer + 1) % 256 }
    if s1.dataPointer + 1 < s1.nbDataToSend then (s1, [.continueAck])
    else (s1, [.continueNack])
  -- MR_DATA_RECEIVED_NO_ACK_RETURN_58: store final byte, stop.
  else if status = 0x58 then
    ({ s with
        receivedWrites := s.receivedWrites ++ [(s.dataPointer, twdr)],
        dataPointer := (s.dataPointer + 1) % 256,
        driverState := .I2C_READY }, [.stopCond])
  -- MR_STARTBIT_TRANSMITTED_AND_NO_ACK_RECEIVED_48: no error recorded.
  else if status = 0x48 then
    ({ s with driverState := .I2C_READY }, [.stopCond])
  -- MASTER_ARBITRATION_LOST_38: record error, twi_releaseBus (TWCR write
  -- without TWSTO, then driverState = I2C_READY).
  else if status = 0x38 then
    ({ s with lastRequestStatus := .I2C_LOST_ARBITRATION,
              driverState := .I2C_READY }, [.continueAck])
  -- COMMON_NO_INFO_F8
  else if status = 0xF8 then
    ({ s with driverState := .I2C_READY }, [])
  -- COMMON_BUS_EEOR_00
  else if status = 0x00 then
    ({ s with lastRequestStatus := .I2C_BUS_ERROR,
              driverState := .I2C_READY }, [.stopCond])
  else
    (s, [])

/-- Run the master interrupt handler over a list of (status, TWDR) events,
concatenating the emitted bus actions. -/
def runEvents (s : MasterState) : List (Nat × Nat) →
    MasterState × List BusAction
  | [] => (s, [])
  | e :: evs =>
    let p := masterStep s e.1 e.2
    let q := runEvents p.1 evs
    (q.1, p.2 ++ q.2)

/-- Bus actions of the data phase of a master-send of the given bytes, as
the state machine emits them: each byte is written to TWDR and continued
with acknowledge, and the byte-acknowledged event past the last byte issues
the stop condition. -/
def sendActs : List Nat → List BusAction
  | [] => [.stopCond]
  | b :: r => .writeTWDR b :: .continueAck :: sendActs r

/-- Is this action the stop condition? -/
def isStop : BusAction → Bool
  | .stopCond => true
  | _ => false

/-- Is this action a continuation refusing acknowledge (TWEA cleared)? -/
def isNack : BusAction → Bool
  | .continueNack => true
  | _ => false

/-- The bytes written to the TWDR data register, in order. -/
def dataWrites : List BusAction → List Nat :=
  List.filterMap fun a =>
    match a with
    | .writeTWDR b => some b
    | _ => none

/-- A complete master-send transaction against an always-acknowledging
peer: the facade call, then the start-transmitted event (0x08), the
address-acknowledged event (0x18) and one byte-acknowledged event (0x28)
per requested byte (the final one finding the buffer exhausted). -/
def masterSendRun (s : MasterState) (a : Nat) (data : List Nat)
    (len : Nat) : MasterState × List BusAction :=
  runEvents (sendTo s a data len).state
    ((0x08, 0) :: (0x18, 0) :: List.replicate len (0x28, 0))

/-- The acknowledge policy of the receive path: continue with acknowledge
when more than one byte remains to be received, without acknowledge when at
most one remains. -/
def polAct (remaining : Nat) : BusAction :=
  if 1 < remaining then .continueAck else .continueNack

/-- Continuation requests emitted while `remaining` bytes are still
expected: one per upcoming byte, each chosen by `polAct` for the number of
bytes remaining at that moment. -/
def recvPolicyActs : Nat → List BusAction
  | 0 => []
  | r + 1 => polAct (r + 1) :: recvPolicyActs r

/-- The (index, value) pairs stored when bytes `bs` are written to
consecutive buffer slots starting at index `i`. -/
def writeLog (i : Nat) : List Nat → List (Nat × Nat)
  | [] => []
  | b :: r => (i, b) :: writeLog (i + 1) r

/-- A complete master-receive transaction delivering the bytes
`mid ++ [bl]`: the facade call, the start-transmitted event (0x08), the
address-acknowledged event (0x40), one byte-received-acknowledged event
(0x50) per non-final byte, and the final byte-received-not-acknowledged
event (0x58). -/
def masterReceiveRun (s : MasterState) (a : Nat) (mid : List Nat)
    (bl : Nat) : MasterState × List BusAction :=
  runEvents (readFrom s a (mid ++ [bl]) (mid.length + 1)).state
    ((0x08, 0) :: (0x40, 0) ::
      (mid.map (fun b => ((0x50 : Nat), b)) ++ [((0x58 : Nat), bl)]))

/-- Which status codes the hardware may legally report next, as a function
of the driver's state: master codes only arrive while a transaction is in
flight and for the matching communication type, and the
byte-received-with-acknowledge / without-acknowledge codes 0x50 / 0x58
only arrive in the acknowledge mode the driver itself requested (the
receive branches request with-acknowledge exactly when
`dataPointer + 1 < nbDataToSend`). -/
def mConformant (s : MasterState) (status : Nat) : Bool :=
  if status = 0x08 ∨ status = 0x10 then
    decide (s.driverState = .I2C_MASTER_TRANSMIT)
  else if status = 0x18 ∨ status = 0x28 ∨ status = 0x20 ∨ status = 0x30 then
    decide (s.driverState = .I2C_MASTER_TRANSMIT) &&
      decide (s.typeOfCommunication = .MASTER_SEND)
  else if status = 0x40 ∨ status = 0x48 then
    decide (s.driverState = .I2C_MASTER_TRANSMIT) &&
      decide (s.typeOfCommunication = .MASTER_RECEIVED)
  else if status = 0x50 then
    decide (s.driverState = .I2C_MASTER_TRANSMIT) &&
      decide (s.typeOfCommunication = .MASTER_RECEIVED) &&
      decide (s.dataPointer + 1 < s.nbDataToSend)
  else if status = 0x58 then
    decide (s.driverState = .I2C_MASTER_TRANSMIT) &&
      decide (s.typeOfCommunication = .MASTER_RECEIVED) &&
      !decide (s.dataPointer + 1 < s.nbDataToSend)
  else if status = 0x38 then
    decide (s.driverState = .I2C_MASTER_TRANSMIT)
  else if status = 0xF8 ∨ status = 0x00 then
    true
  else
    false

/-- Is every event of the list protocol-conformant when fed to the driver
in sequence? -/
def eventsConformant (s : MasterState) : List (Nat × Nat) → Bool
  | [] => true
  | e :: evs =>
    mConformant s e.1 && eventsConformant (masterStep s e.1 e.2).1 evs

/-- States reachable from a facade call on an idle driver through any
protocol-conformant interrupt sequence.  `P` constrains the (8-bit
truncated) length a `readFrom` transaction may start with. -/
inductive MReachG (P : Nat → Prop) : MasterState → Prop where
  | startSend (s0 : MasterState) (a : Nat) (data : List Nat) (len : Nat)
      (h : s0.driverState = .I2C_READY) :
      MReachG P (sendTo s0 a data len).state
  | startRecv (s0 : MasterState) (a : Nat) (data : List Nat) (len : Nat)
      (h : s0.driverState = .I2C_READY) (hp : P (len % 256)) :
      MReachG P (readFrom s0 a data len).state
  | step (s : MasterState) (code twdr : Nat) (hr : MReachG P s)
      (hc : mConformant s code = true) :
      MReachG P (masterStep s code twdr).1

/-- The cursor/length invariant of reachable states, for master-receive
transactions of length at least 1: the cursor never exceeds the length,
and strictly precedes it while the transaction is in flight. -/
def MInv (s : MasterState) : Prop :=
  s.nbDataToSend ≤ 255 ∧
  s.dataPointer ≤ s.nbDataToSend ∧
  (s.typeOfCommunication = .MASTER_RECEIVED →
    s.driverState = .I2C_MASTER_TRANSMIT →
    s.dataPointer < s.nbDataToSend)

/-- The module-level `static` variables of the `MODE_SLAVE` build of
I2CDriver.cpp.  `slaveBuffer` is the fixed array `uint8_t
slaveBuffer[I2C_BUFFER_SIZE]`; stores into it are modelled by the
`slaveWrites` log so that out-of-bounds indices stay visible.  The
registered callbacks are modelled by `slaveTransmitSource` (the buffer the
transmit callback returns) and by `receiveCalls` (the log of `nbBytes`
arguments the receive callback is invoked with). -/
structure SlaveState where
  typeOfCommunication : tI2CTypeOfCommunication
  driverState : tI2CDriverState
  /-- `uint8_t slaveDataPointer`. -/
  slaveDataPointer : Nat
  /-- Log of `slaveBuffer[i] = TWDR` stores as (index, value). -/
  slaveWrites : List (Nat × Nat)
  /-- Contents returned by `slaveTransmitCallBack()`. -/
  slaveTransmitSource : List Nat
  /-- Contents `slaveTransmitBuffer` points at. -/
  slaveTransmitBuffer : List Nat
  /-- `uint8_t nbByteToTransmit`. -/
  nbByteToTransmit : Nat
  /-- Log of the `nbBytes` arguments passed to `slaveReceiveCallBack`. -/
  receiveCalls : List Nat
  lastRequestStatus : tI2CDriverError
deriving DecidableEq, Repr

/-- The `MODE_SLAVE` branch of `ISR(TWI_vect)` (I2CDriver.cpp lines
350-436). -/
def slaveStep (s : SlaveState) (status twdr : Nat) :
    SlaveState × List BusAction :=
  -- SR_START_TRANSMISSION_RECEIVED_60 / SR_ARBITRATION_LOST_ACK_RETURN_68
  -- / SR_GENERAL_ADDRESS_RECEIVED_ACK_RETURN_70 / SR_..._78
  if status = 0x60 ∨ status = 0x68 ∨ status = 0x70 ∨ status = 0x78 then
    ({ s with typeOfCommunication := .SLAVE_RECEIVED,
              driverState := .I2C_SLAVE_RECEIVE,
              slaveDataPointer := 0 }, [.continueAck])
  -- SR_DATA_RECEIVED_ACK_RETURN_80 / SR_GENERAL_DATA_..._90: store the
  -- byte unconditionally (no capacity check) and acknowledge.
  else if status = 0x80 ∨ status = 0x90 then
    ({ s with
        slaveWrites := s.slaveWrites ++ [(s.slaveDataPointer, twdr)],
        slaveDataPointer := (s.slaveDataPointer + 1) % 256 },
     [.continueAck])
  -- SR_DATA_RECEIVED_NO_ACK_RETURN_88 / SR_GENERAL_DATA_..._98
  else if status = 0x88 ∨ status = 0x98 then
    ({ s with
        slaveWrites := s.slaveWrites ++ [(s.slaveDataPointer, twdr)],
        slaveDataPointer := (s.slaveDataPointer + 1) % 256 },
     [.continueNack])
  -- SR_STOP_RECEIVED: invoke the receive callback with (slaveBuffer,
  -- slaveDataPointer), then ENABLE_I2C() and twi_releaseBus().
  else if status = 0xA0 then
    ({ s with receiveCalls := s.receiveCalls ++ [s.slaveDataPointer],
              driverState := .I2C_READY },
     [.enableOnly, .continueAck])
  -- ST_START_TRANSMISSION_RECEIVED_A8 / ST_ARBITRATION_LOST_ACK_RETURN_B0
  else if status = 0xA8 ∨ status = 0xB0 then
    if 1 % 256 < s.nbByteToTransmit then
      ({ s with typeOfCommunication := .SLAVE_SEND,
                driverState := .I2C_SLAVE_TRANSMIT,
                slaveTransmitBuffer := s.slaveTransmitSource,
                slaveDataPointer := 1 % 256 },
       [.writeTWDR (s.slaveTransmitSource.getD 0 0), .continueAck])
    else
      ({ s with typeOfCommunication := .SLAVE_SEND,
                driverState := .I2C_SLAVE_TRANSMIT,
                slaveTransmitBuffer := s.slaveTransmitSource,
                slaveDataPointer := 1 % 256 },
       [.writeTWDR (s.slaveTransmitSource.getD 0 0), .continueNack])
  -- ST_DATA_TRANSMIT_ACK_RECEIVED_B8
  else if status = 0xB8 then
    if (s.slaveDataPointer + 1) % 256 < s.nbByteToTransmit then
      ({ s with slaveDataPointer := (s.slaveDataPointer + 1) % 256 },
       [.writeTWDR (s.slaveTransmitBuffer.getD s.slaveDataPointer 0),
        .continueAck])
    else
      ({ s with slaveDataPointer := (s.slaveDataPointer + 1) % 256 },
       [.writeTWDR (s.slaveTransmitBuffer.getD s.slaveDataPointer 0),
        .continueNack])
  -- ST_DATA_TRANSMIT_NO_ACK_RECEIVED_C0 / ST_LAST_DATA_..._C8
  else if status = 0xC0 ∨ status = 0xC8 then
    ({ s with driverState := .I2C_READY }, [.continueAck])
  -- COMMON_NO_INFO_F8
  else if status = 0xF8 then
    ({ s with driverState := .I2C_READY }, [])
  -- COMMON_BUS_EEOR_00
  else if status = 0x00 then
    ({ s with lastRequestStatus := .I2C_BUS_ERROR,
              driverState := .I2C_READY }, [.stopCond])
  else
    (s, [])

/-- Run the slave interrupt handler over a list of (status, TWDR)
events. -/
def runSlaveEvents (s : SlaveState) : List (Nat × Nat) →
    SlaveState × List BusAction
  | [] => (s, [])
  | e :: evs =>
    let p := slaveStep s e.1 e.2
    let q := runSlaveEvents p.1 evs
    (q.1, p.2 ++ q.2)

/-- A complete slave-receive transaction delivering `bytes`: own-address
received (0x60), each data byte received with acknowledge returned (0x80 —
the driver always requests with-acknowledge in this mode), then stop
(0xA0). -/
def slaveReceiveRun (s : SlaveState) (bytes : List Nat) :
    SlaveState × List BusAction :=
  runSlaveEvents s
    ((0x60, 0) ::
      (bytes.map (fun b => ((0x80 : Nat), b)) ++ [((0xA0 : Nat), 0)]))

/-- State right after `I2CDriver::initialisation` in the slave build:
`driverState = I2C_READY`, every other static variable zero-initialised. -/
def initSlaveState : SlaveState :=
  { typeOfCommunication := .MASTER_SEND
    driverState := .I2C_READY
    slaveDataPointer := 0
    slaveWrites := []
    slaveTransmitSource := []
    slaveTransmitBuffer := []
    nbByteToTransmit := 0
    receiveCalls := []
    lastRequestStatus := .I2C_OK }

/-! ## Theorems -/

theorem masterStep_08 (s : MasterState) (t : Nat) :
    masterStep s 0x08 t = (s, [.writeTWDR s.i2cAddress, .continueAck]) := rfl

theorem masterStep_10 (s : MasterState) (t : Nat) :
    masterStep s 0x10 t = (s, [.writeTWDR s.i2cAddress, .continueAck]) := rfl

theorem masterStep_28 (s : MasterState) (t : Nat) :
    masterStep s 0x28 t =
      if s.dataPointer < s.nbDataToSend then
        ({ s with dataPointer := (s.dataPointer + 1) % 256 },
         [.writeTWDR (s.i2cBuffer.getD s.dataPointer 0), .continueAck])
      else
        ({ s with driverState := .I2C_READY }, [.stopCond]) := rfl

/-- Status 0x18 and 0x28 share one `case` body in the source. -/
theorem masterStep_18_eq_28 (s : MasterState) (t : Nat) :
    masterStep s 0x18 t = masterStep s 0x28 t := rfl

theorem masterStep_20 (s : MasterState) (t : Nat) :
    masterStep s 0x20 t =
      ({ s with lastRequestStatus := .I2C_MISSING_ACK,
                driverState := .I2C_READY }, [.stopCond]) := rfl

theorem masterStep_30 (s : MasterState) (t : Nat) :
    masterStep s 0x30 t =
      ({ s with lastRequestStatus := .I2C_MISSING_ACK,
                driverState := .I2C_READY }, [.stopCond]) := rfl

theorem masterStep_40 (s : MasterState) (t : Nat) :
    masterStep s 0x40 t =
      if s.dataPointer + 1 < s.nbDataToSend then (s, [.continueAck])
      else (s, [.continueNack]) := rfl

theorem masterStep_50 (s : MasterState) (t : Nat) :
    masterStep s 0x50 t =
      if (s.dataPointer + 1) % 256 + 1 < s.nbDataToSend then
        ({ s with
            receivedWrites := s.receivedWrites ++ [(s.dataPointer, t)],
            dataPointer := (s.dataPointer + 1) % 256 }, [.continueAck])
      else
        ({ s with
            receivedWrites := s.receivedWrites ++ [(s.dataPointer, t)],
            dataPointer := (s.dataPointer + 1) % 256 }, [.continueNack]) := rfl

theorem masterStep_58 (s : MasterState) (t : Nat) :
    masterStep s 0x58 t =
      ({ s with
          receivedWrites := s.receivedWrites ++ [(s.dataPointer, t)],
          dataPointer := (s.dataPointer + 1) % 256,
          driverState := .I2C_READY }, [.stopCond]) := rfl

theorem masterStep_48 (s : MasterState) (t : Nat) :
    masterStep s 0x48 t =
      ({ s with driverState := .I2C_READY }, [.stopCond]) := rfl

theorem masterStep_38 (s : MasterState) (t : Nat) :
    masterStep s 0x38 t =
      ({ s with lastRequestStatus := .I2C_LOST_ARBITRATION,
                driverState := .I2C_READY }, [.continueAck]) := rfl

theorem masterStep_F8 (s : MasterState) (t : Nat) :
    masterStep s 0xF8 t = ({ s with driverState := .I2C_READY }, []) := rfl

theorem masterStep_00 (s : MasterState) (t : Nat) :
    masterStep s 0x00 t =
      ({ s with lastRequestStatus := .I2C_BUS_ERROR,
                driverState := .I2C_READY }, [.stopCond]) := rfl

theorem runEvents_nil (s : MasterState) : runEvents s [] = (s, []) := rfl

theorem runEvents_cons (s : MasterState) (e : Nat × Nat)
    (evs : List (Nat × Nat)) :
    runEvents s (e :: evs) =
      ((runEvents (masterStep s e.1 e.2).1 evs).1,
       (masterStep s e.1 e.2).2 ++ (runEvents (masterStep s e.1 e.2).1 evs).2) :=
  rfl

/-- Hardware codes 0x18 (first data byte acknowledged) and 0x28 (subsequent
data byte acknowledged) run the same source code, so runs may interchange
them. -/
theorem runEvents_18_28 (s : MasterState) (t : Nat)
    (evs : List (Nat × Nat)) :
    runEvents s ((0x18, t) :: evs) = runEvents s ((0x28, t) :: evs) := rfl

theorem eventsConformant_cons (s : MasterState) (e : Nat × Nat)
    (evs : List (Nat × Nat)) :
    eventsConformant s (e :: evs) =
      (mConformant s e.1 &&
        eventsConformant (masterStep s e.1 e.2).1 evs) := rfl

theorem eventsConformant_18_28 (s : MasterState) (t : Nat)
    (evs : List (Nat × Nat)) :
    eventsConformant s ((0x18, t) :: evs) =
      eventsConformant s ((0x28, t) :: evs) := rfl

/-- The byte-acknowledged events of a master-send run are all
protocol-conformant while the transaction is in flight. -/
theorem sendConformant_aux (k : Nat) :
    ∀ s : MasterState,
      s.driverState = .I2C_MASTER_TRANSMIT →
      s.typeOfCommunication = .MASTER_SEND →
      s.dataPointer + k = s.nbDataToSend →
      s.nbDataToSend ≤ 255 →
      eventsConformant s (List.replicate (k + 1) (0x28, 0)) = true := by
  induction k with
  | zero =>
    intro s hst hty hlen h255
    rw [List.replicate_succ, List.replicate_zero, eventsConformant_cons]
    simp [eventsConformant, mConformant, hst, hty]
  | succ k ih =>
    intro s hst hty hlen h255
    rw [List.replicate_succ, eventsConformant_cons]
    rw [Bool.and_eq_true]
    constructor
    · simp [mConformant, hst, hty]
    · rw [masterStep_28, if_pos (by omega)]
      exact ih _ hst hty (by simp; rw [Nat.mod_eq_of_lt (by omega)]; omega)
        (by simpa using h255)

/-- The byte-received events of a master-receive run are all
protocol-conformant: each 0x50 arrives only while the driver requested
with-acknowledge, and the final 0x58 only once it requested
without-acknowledge. -/
theorem recvConformant_aux (mid : List Nat) :
    ∀ (bl : Nat) (s : MasterState),
      s.driverState = .I2C_MASTER_TRANSMIT →
      s.typeOfCommunication = .MASTER_RECEIVED →
      s.dataPointer + mid.length + 1 = s.nbDataToSend →
      s.nbDataToSend ≤ 255 →
      eventsConformant s
        (mid.map (fun b => ((0x50 : Nat), b)) ++ [((0x58 : Nat), bl)]) =
        true := by
  induction mid with
  | nil =>
    intro bl s hst hty hlen h255
    simp only [List.length_nil, Nat.add_zero] at hlen
    rw [List.map_nil, List.nil_append, eventsConformant_cons]
    simp [eventsConformant, mConformant, hst, hty]
    omega
  | cons b r ih =>
    intro bl s hst hty hlen h255
    simp only [List.length_cons] at hlen
    rw [List.map_cons, List.cons_append, eventsConformant_cons]
    rw [Bool.and_eq_true]
    constructor
    · simp [mConformant, hst, hty]; omega
    · rw [masterStep_50]
      have hmod : (s.dataPointer + 1) % 256 = s.dataPointer + 1 :=
        Nat.mod_eq_of_lt (by omega)
      split
      · exact ih bl _ hst hty (by simp; omega) (by simpa using h255)
      · exact ih bl _ hst hty (by simp; omega) (by simpa using h255)

/-- The full event sequence of `masterSendRun` is protocol-conformant. -/
theorem masterSendRun_conformant (s : MasterState) (a : Nat)
    (data : List Nat) (len : Nat) (hidle : s.driverState = .I2C_READY)
    (h255 : len ≤ 255) :
    eventsConformant (sendTo s a data len).state
      ((0x08, 0) :: (0x18, 0) :: List.replicate len (0x28, 0)) = true := by
  unfold sendTo
  rw [if_pos hidle]
  rw [eventsConformant_cons, Bool.and_eq_true]
  constructor
  · simp [mConformant]
  · rw [masterStep_08, eventsConformant_18_28, ← List.replicate_succ]
    exact sendConformant_aux len _ rfl rfl
      (by simp; rw [Nat.mod_eq_of_lt (by omega)])
      (by simp; have := Nat.mod_lt len (show 0 < 256 by omega); omega)

/-- The full event sequence of `masterReceiveRun` is
protocol-conformant. -/
theorem masterReceiveRun_conformant (s : MasterState) (a : Nat)
    (mid : List Nat) (bl : Nat) (hidle : s.driverState = .I2C_READY)
    (h255 : mid.length + 1 ≤ 255) :
    eventsConformant
      (readFrom s a (mid ++ [bl]) (mid.length + 1)).state
      ((0x08, 0) :: (0x40, 0) ::
        (mid.map (fun b => ((0x50 : Nat), b)) ++ [((0x58 : Nat), bl)])) =
      true := by
  have hmod : (mid.length + 1) % 256 = mid.length + 1 :=
    Nat.mod_eq_of_lt (by omega)
  unfold readFrom
  rw [if_pos hidle]
  rw [eventsConformant_cons, Bool.and_eq_true]
  constructor
  · simp [mConformant]
  · rw [masterStep_08, eventsConformant_cons, Bool.and_eq_true]
    constructor
    · simp [mConformant]
    · rw [masterStep_40]
      split
      · exact recvConformant_aux mid bl _ rfl rfl (by simp [hmod])
          (by simp [hmod]; omega)
      · exact recvConformant_aux mid bl _ rfl rfl (by simp [hmod])
          (by simp [hmod]; omega)

theorem dataWrites_sendActs (bs : List Nat) :
    dataWrites (sendActs bs) = bs := by
  induction bs with
  | nil => rfl
  | cons b r ih => simp [sendActs, dataWrites] at ih ⊢; exact ih

theorem filter_isStop_sendActs (bs : List Nat) :
    (sendActs bs).filter isStop = [.stopCond] := by
  induction bs with
  | nil => rfl
  | cons b r ih => simp [sendActs, List.filter, isStop] at ih ⊢; exact ih

theorem getD_take (l : List Nat) :
    ∀ (n i : Nat), i < n → (l.take n).getD i 0 = l.getD i 0 := by
  induction l with
  | nil => intro n i _; simp
  | cons x xs ih =>
    intro n i h
    cases n with
    | zero => omega
    | succ n =>
      cases i with
      | zero => simp
      | succ i =>
        simp only [List.take_succ_cons, List.getD_cons_succ]
        exact ih n i (by omega)

/-- Data phase of a master-send: from a state whose cursor still has `rest`
bytes to go, the byte-acknowledged events write out exactly those bytes and
then issue the stop condition. -/
theorem runSend_aux (rest : List Nat) :
    ∀ s : MasterState,
      (∀ i, i < rest.length →
        s.i2cBuffer.getD (s.dataPointer + i) 0 = rest.getD i 0) →
      s.dataPointer + rest.length = s.nbDataToSend →
      s.nbDataToSend ≤ 255 →
      runEvents s (List.replicate (rest.length + 1) (0x28, 0)) =
        ({ s with dataPointer := s.nbDataToSend,
                  driverState := .I2C_READY }, sendActs rest) := by
  induction rest with
  | nil =>
    intro s hbuf hlen h255
    simp only [List.length_nil, Nat.zero_add, Nat.add_zero] at *
    rw [List.replicate_succ, List.replicate_zero, runEvents_cons,
      masterStep_28, if_neg (by omega)]
    simp only [runEvents_nil, List.append_nil]
    rw [← hlen]
    rfl
  | cons b r ih =>
    intro s hbuf hlen h255
    have hb : s.i2cBuffer.getD s.dataPointer 0 = b := by
      have h0 := hbuf 0 (by simp)
      simpa using h0
    have hdp : s.dataPointer < s.nbDataToSend := by
      simp only [List.length_cons] at hlen; omega
    have hmod : (s.dataPointer + 1) % 256 = s.dataPointer + 1 :=
      Nat.mod_eq_of_lt (by simp only [List.length_cons] at hlen; omega)
    rw [show (b :: r).length + 1 = (r.length + 1) + 1 by simp,
      List.replicate_succ, runEvents_cons, masterStep_28, if_pos hdp, hmod,
      hb]
    have hIH := ih { s with dataPointer := s.dataPointer + 1 }
      (by
        intro i hi
        have h1 := hbuf (i + 1) (by simp; omega)
        simp only [show s.dataPointer + 1 + i = s.dataPointer + (i + 1) from
          by omega]
        simpa using h1)
      (by simp only [List.length_cons] at hlen; simp; omega)
      (by simpa using h255)
    simp only at hIH
    rw [hIH]
    simp [sendActs]

theorem masterSendRun_eq (s : MasterState) (a : Nat) (data : List Nat)
    (len : Nat) (hidle : s.driverState = .I2C_READY)
    (hcap : len ≤ data.length) (h255 : len ≤ 255) :
    masterSendRun s a data len =
      ({ s with
          typeOfCommunication := .MASTER_SEND
          driverState := .I2C_READY
          dataPointer := len % 256
          nbDataToSend := len % 256
          i2cAddress := a * 2 % 256
          i2cBuffer := data },
       .writeTWDR (a * 2 % 256) :: .continueAck ::
         sendActs (data.take len)) := by
  have hmod : len % 256 = len := Nat.mod_eq_of_lt (by omega)
  have htk : (data.take len).length = len := by
    rw [List.length_take]; omega
  unfold masterSendRun sendTo
  rw [if_pos hidle]
  rw [runEvents_cons]
  rw [masterStep_08, runEvents_18_28, ← List.replicate_succ]
  rw [show len + 1 = (data.take len).length + 1 by omega]
  rw [runSend_aux (data.take len) _
    (by
      intro i hi
      rw [htk] at hi
      simp only [Nat.zero_add]
      exact (getD_take data len i hi).symm)
    (by simp only [htk, Nat.zero_add, hmod])
    (by simp only [hmod]; omega)]
  simp only [hmod]
  rfl

/-- C3.  For every master-send transaction with length not exceeding the
caller buffer's capacity and an always-acknowledging peer, the state
machine writes exactly `len` data bytes — `buffer[0] .. buffer[len-1]`, in
order, via the data register — after the address phase and before the stop
condition, issues the stop condition exactly once, and returns the driver
state to Idle. -/
theorem C3_master_send_exact_writes (s : MasterState) (a : Nat)
    (data : List Nat) (len : Nat) (hidle : s.driverState = .I2C_READY)
    (hcap : len ≤ data.length) (h255 : len ≤ 255) :
    (masterSendRun s a data len).2 =
      .writeTWDR (a * 2 % 256) :: .continueAck ::
        sendActs (data.take len) ∧
    dataWrites (sendActs (data.take len)) = data.take len ∧
    (data.take len).length = len ∧
    ((masterSendRun s a data len).2.filter isStop).length = 1 ∧
    (masterSendRun s a data len).1.driverState = .I2C_READY ∧
    eventsConformant (sendTo s a data len).state
      ((0x08, 0) :: (0x18, 0) :: List.replicate len (0x28, 0)) = true := by
  rw [masterSendRun_eq s a data len hidle hcap h255]
  refine ⟨rfl, dataWrites_sendActs _, ?_, ?_, rfl,
    masterSendRun_conformant s a data len hidle h255⟩
  · rw [List.length_take]; omega
  · simp [isStop, filter_isStop_sendActs]

/-- Witness for C3 at a concrete transaction: 3 bytes to address 0x50. -/
theorem C3_master_send_exact_writes_witness :
    (masterSendRun initState 0x50 [1, 2, 3] 3).2 =
      .writeTWDR (0x50 * 2 % 256) :: .continueAck ::
        sendActs ([1, 2, 3].take 3) ∧
    dataWrites (sendActs ([1, 2, 3].take 3)) = [1, 2, 3].take 3 ∧
    ([1, 2, 3].take 3).length = 3 ∧
    ((masterSendRun initState 0x50 [1, 2, 3] 3).2.filter isStop).length = 1 ∧
    (masterSendRun initState 0x50 [1, 2, 3] 3).1.driverState =
      .I2C_READY ∧
    eventsConformant (sendTo initState 0x50 [1, 2, 3] 3).state
      ((0x08, 0) :: (0x18, 0) :: List.replicate 3 (0x28, 0)) = true :=
  C3_master_send_exact_writes initState 0x50 [1, 2, 3] 3 rfl (by decide)
    (by decide)

/-- C5.  A missing-acknowledge event (0x20 on the address, 0x30 on a data
byte) records `I2C_MISSING_ACK`, and a bus-error event (0x00, possible at
any phase) records `I2C_BUS_ERROR`; each issues the stop condition exactly
once and leaves the driver state Idle, from any state. -/
theorem C5_missing_ack_and_bus_error (s : MasterState) (t : Nat) :
    masterStep s 0x20 t =
      ({ s with lastRequestStatus := .I2C_MISSING_ACK,
                driverState := .I2C_READY }, [.stopCond]) ∧
    masterStep s 0x30 t =
      ({ s with lastRequestStatus := .I2C_MISSING_ACK,
                driverState := .I2C_READY }, [.stopCond]) ∧
    masterStep s 0x00 t =
      ({ s with lastRequestStatus := .I2C_BUS_ERROR,
                driverState := .I2C_READY }, [.stopCond]) ∧
    ((masterStep s 0x20 t).2.filter isStop).length = 1 ∧
    ((masterStep s 0x30 t).2.filter isStop).length = 1 ∧
    ((masterStep s 0x00 t).2.filter isStop).length = 1 :=
  ⟨rfl, rfl, rfl, rfl, rfl, rfl⟩

/-- C6.  The arbitration-lost event (0x38) records
`I2C_LOST_ARBITRATION`, releases the bus via `twi_releaseBus` — a TWCR
write without TWSTO, so no stop condition is issued — and leaves the
driver state Idle. -/
theorem C6_arbitration_loss (s : MasterState) (t : Nat) :
    masterStep s 0x38 t =
      ({ s with lastRequestStatus := .I2C_LOST_ARBITRATION,
                driverState := .I2C_READY }, [.continueAck]) ∧
    BusAction.stopCond ∉ (masterStep s 0x38 t).2 ∧
    (masterStep s 0x38 t).1.driverState = .I2C_READY :=
  ⟨rfl, by rw [masterStep_38]; simp, rfl⟩

/-- C8.  The master-receive address-not-acknowledged event (0x48) issues a
stop condition and returns to Idle but leaves `lastRequestStatus`
untouched, whereas the master-send address-not-acknowledged event (0x20)
records `I2C_MISSING_ACK`. -/
theorem C8_receive_addr_nack_frame (s : MasterState) (t : Nat) :
    masterStep s 0x48 t =
      ({ s with driverState := .I2C_READY }, [.stopCond]) ∧
    (masterStep s 0x48 t).1.lastRequestStatus = s.lastRequestStatus ∧
    (masterStep s 0x20 t).1.lastRequestStatus = .I2C_MISSING_ACK :=
  ⟨rfl, rfl, rfl⟩

/-- C7 counterexample.  From the Idle initial state the call is accepted —
the driver moves to the in-flight state and issues the start condition —
yet `sendTo` returns 0, a falsy value, not the truthy "accepted" value the
claim requires; `readFrom` behaves identically. -/
theorem C7_counterexample :
    (sendTo initState 0x50 [1] 1).state.driverState =
      .I2C_MASTER_TRANSMIT ∧
    (sendTo initState 0x50 [1] 1).actions = [.startCond] ∧
    (sendTo initState 0x50 [1] 1).ret = 0 ∧
    (readFrom initState 0x50 [1] 1).state.driverState =
      .I2C_MASTER_TRANSMIT ∧
    (readFrom initState 0x50 [1] 1).ret = 0 :=
  ⟨rfl, rfl, rfl, rfl, rfl⟩

/-- C7 amended.  `sendTo` and `readFrom` unconditionally return 0: the
return value carries no information about whether the call was accepted or
rejected. -/
theorem C7_amended_return_zero (s : MasterState) (a : Nat)
    (data : List Nat) (len : Nat) :
    (sendTo s a data len).ret = 0 ∧ (readFrom s a data len).ret = 0 := by
  constructor
  · unfold sendTo; split <;> rfl
  · unfold readFrom; split <;> rfl

/-- C10.  Starting a master transaction never resets `lastRequestStatus`
(`sendTo` and `readFrom` preserve it in both the accepted and rejected
case), and a fully successful master-send transaction completes with
`lastRequestStatus` still equal to whatever it held before — a stale error
is never cleared back to `I2C_OK`. -/
theorem C10_lastError_never_reset (s : MasterState) (a : Nat)
    (data : List Nat) (hidle : s.driverState = .I2C_READY)
    (h255 : data.length ≤ 255) :
    (sendTo s a data data.length).state.lastRequestStatus =
      s.lastRequestStatus ∧
    (readFrom s a data data.length).state.lastRequestStatus =
      s.lastRequestStatus ∧
    (masterSendRun s a data data.length).1.lastRequestStatus =
      s.lastRequestStatus ∧
    (masterSendRun s a data data.length).1.driverState = .I2C_READY := by
  rw [masterSendRun_eq s a data data.length hidle le_rfl h255]
  refine ⟨?_, ?_, rfl, rfl⟩
  · unfold sendTo; split <;> rfl
  · unfold readFrom; split <;> rfl

/-- Witness for C10: a driver still holding `I2C_MISSING_ACK` from an
earlier failure runs one fully successful 1-byte send; the stale error
survives. -/
theorem C10_lastError_never_reset_witness :
    (sendTo { initState with lastRequestStatus := .I2C_MISSING_ACK }
      2 [9] 1).state.lastRequestStatus =
      ({ initState with
          lastRequestStatus :=
            .I2C_MISSING_ACK } : MasterState).lastRequestStatus ∧
    (readFrom { initState with lastRequestStatus := .I2C_MISSING_ACK }
      2 [9] 1).state.lastRequestStatus =
      ({ initState with
          lastRequestStatus :=
            .I2C_MISSING_ACK } : MasterState).lastRequestStatus ∧
    (masterSendRun { initState with lastRequestStatus := .I2C_MISSING_ACK }
      2 [9] 1).1.lastRequestStatus =
      ({ initState with
          lastRequestStatus :=
            .I2C_MISSING_ACK } : MasterState).lastRequestStatus ∧
    (masterSendRun { initState with lastRequestStatus := .I2C_MISSING_ACK }
      2 [9] 1).1.driverState = .I2C_READY :=
  C10_lastError_never_reset
    { initState with lastRequestStatus := .I2C_MISSING_ACK } 2 [9] rfl
    (by decide)

theorem recvPolicyActs_eq (n : Nat) :
    recvPolicyActs (n + 1) =
      List.replicate n BusAction.continueAck ++ [.continueNack] := by
  induction n with
  | zero => rfl
  | succ k ih =>
    rw [recvPolicyActs, ih]
    simp [polAct, List.replicate_succ]

theorem writeLog_cons (i b : Nat) (r : List Nat) :
    writeLog i (b :: r) = (i, b) :: writeLog (i + 1) r := rfl

theorem mem_writeLog (bs : List Nat) :
    ∀ (i k : Nat), k < bs.length →
      (i + k, bs.getD k 0) ∈ writeLog i bs := by
  induction bs with
  | nil => intro i k h; simp at h
  | cons b r ih =>
    intro i k h
    cases k with
    | zero => simp [writeLog]
    | succ k =>
      rw [writeLog_cons]
      refine List.mem_cons_of_mem _ ?_
      have := ih (i + 1) k (by simp at h; omega)
      simpa [show i + 1 + k = i + (k + 1) from by omega] using this

/-- Data phase of a master-receive: from a state still expecting
`mid.length + 1` bytes, the byte-received events store all the bytes at
consecutive cursor positions, emit one continuation request per upcoming
byte as dictated by the look-ahead acknowledge policy, and the final-byte
event issues the stop condition and returns the driver to Idle. -/
theorem runRecv_aux (mid : List Nat) :
    ∀ (bl : Nat) (s : MasterState),
      s.dataPointer + mid.length + 1 = s.nbDataToSend →
      s.nbDataToSend ≤ 255 →
      runEvents s
          (mid.map (fun b => ((0x50 : Nat), b)) ++ [((0x58 : Nat), bl)]) =
        ({ s with
            receivedWrites :=
              s.receivedWrites ++ writeLog s.dataPointer (mid ++ [bl]),
            dataPointer := s.nbDataToSend,
            driverState := .I2C_READY },
         recvPolicyActs mid.length ++ [.stopCond]) := by
  induction mid with
  | nil =>
    intro bl s hlen h255
    simp only [List.length_nil, Nat.add_zero] at hlen
    have hmod : (s.dataPointer + 1) % 256 = s.dataPointer + 1 :=
      Nat.mod_eq_of_lt (by omega)
    rw [List.map_nil, List.nil_append, runEvents_cons, masterStep_58, hmod]
    simp only [runEvents_nil, List.append_nil]
    rw [show s.dataPointer + 1 = s.nbDataToSend from hlen]
    rfl
  | cons b r ih =>
    intro bl s hlen h255
    simp only [List.length_cons] at hlen
    have hmod : (s.dataPointer + 1) % 256 = s.dataPointer + 1 :=
      Nat.mod_eq_of_lt (by omega)
    rw [List.map_cons, List.cons_append, runEvents_cons, masterStep_50,
      hmod]
    have hIH := ih bl
      { s with
        receivedWrites := s.receivedWrites ++ [(s.dataPointer, b)],
        dataPointer := s.dataPointer + 1 }
      (by simp; omega) (by simpa using h255)
    simp only at hIH
    split
    case isTrue hc =>
      rw [hIH]
      simp only [recvPolicyActs, polAct, if_pos (show 1 < r.length + 1 by
        omega)]
      simp [List.cons_append, writeLog_cons, List.append_assoc]
    case isFalse hc =>
      rw [hIH]
      simp only [recvPolicyActs, polAct, if_neg (show ¬ 1 < r.length + 1 by
        omega)]
      simp [List.cons_append, writeLog_cons, List.append_assoc]

theorem masterReceiveRun_eq (s : MasterState) (a : Nat) (mid : List Nat)
    (bl : Nat) (hidle : s.driverState = .I2C_READY)
    (h255 : mid.length + 1 ≤ 255) :
    masterReceiveRun s a mid bl =
      ({ s with
          typeOfCommunication := .MASTER_RECEIVED
          driverState := .I2C_READY
          dataPointer := (mid.length + 1) % 256
          nbDataToSend := (mid.length + 1) % 256
          i2cAddress := (a * 2 + 1) % 256
          i2cBuffer := mid ++ [bl]
          receivedWrites := s.receivedWrites ++ writeLog 0 (mid ++ [bl]) },
       .writeTWDR ((a * 2 + 1) % 256) :: .continueAck ::
         (recvPolicyActs (mid.length + 1) ++ [.stopCond])) := by
  have hmod : (mid.length + 1) % 256 = mid.length + 1 :=
    Nat.mod_eq_of_lt (by omega)
  unfold masterReceiveRun readFrom
  rw [if_pos hidle]
  rw [runEvents_cons, masterStep_08, runEvents_cons, masterStep_40]
  rw [hmod]
  have haux := runRecv_aux mid bl
    { s with
      typeOfCommunication := .MASTER_RECEIVED
      driverState := .I2C_MASTER_TRANSMIT
      dataPointer := 0
      nbDataToSend := mid.length + 1
      i2cAddress := (a * 2 + 1) % 256
      i2cBuffer := mid ++ [bl] }
    (by simp) (by simp; omega)
  simp only at haux
  split
  case isTrue hc =>
    rw [haux]
    simp only [recvPolicyActs, polAct,
      if_pos (show 1 < mid.length + 1 by simpa using hc)]
    rfl
  case isFalse hc =>
    rw [haux]
    simp only [recvPolicyActs, polAct,
      if_neg (show ¬ 1 < mid.length + 1 by simpa using hc)]
    rfl

/-- C2.  A master-receive transaction of any valid length `n = mid.length
+ 1` requests a continuation with acknowledge for every received byte
except the last, requests a continuation without acknowledge exactly once
— for the final byte — and returns the driver to Idle with the cursor
equal to the length. -/
theorem C2_master_receive_ack_policy (s : MasterState) (a : Nat)
    (mid : List Nat) (bl : Nat) (hidle : s.driverState = .I2C_READY)
    (h255 : mid.length + 1 ≤ 255) :
    (masterReceiveRun s a mid bl).2 =
      .writeTWDR ((a * 2 + 1) % 256) :: .continueAck ::
        ((List.replicate mid.length BusAction.continueAck ++
          [.continueNack]) ++ [.stopCond]) ∧
    ((masterReceiveRun s a mid bl).2.filter isNack).length = 1 ∧
    (masterReceiveRun s a mid bl).1.driverState = .I2C_READY ∧
    (masterReceiveRun s a mid bl).1.dataPointer = (mid.length + 1) % 256 ∧
    eventsConformant
      (readFrom s a (mid ++ [bl]) (mid.length + 1)).state
      ((0x08, 0) :: (0x40, 0) ::
        (mid.map (fun b => ((0x50 : Nat), b)) ++ [((0x58 : Nat), bl)])) =
      true := by
  rw [masterReceiveRun_eq s a mid bl hidle h255]
  rw [recvPolicyActs_eq]
  refine ⟨rfl, ?_, rfl, rfl,
    masterReceiveRun_conformant s a mid bl hidle h255⟩
  simp [isNack, List.filter_append, List.filter_replicate]

/-- Witness for C2 at the spec's scenario: reading 2 bytes {0xAA, 0xBB}
from address 0x50 — acknowledge on the first byte, refuse-acknowledge on
the second and last. -/
theorem C2_master_receive_ack_policy_witness :
    (masterReceiveRun initState 0x50 [0xAA] 0xBB).2 =
      .writeTWDR ((0x50 * 2 + 1) % 256) :: .continueAck ::
        ((List.replicate [(0xAA : Nat)].length BusAction.continueAck ++
          [.continueNack]) ++ [.stopCond]) ∧
    ((masterReceiveRun initState 0x50 [0xAA] 0xBB).2.filter
      isNack).length = 1 ∧
    (masterReceiveRun initState 0x50 [0xAA] 0xBB).1.driverState =
      .I2C_READY ∧
    (masterReceiveRun initState 0x50 [0xAA] 0xBB).1.dataPointer =
      ([(0xAA : Nat)].length + 1) % 256 ∧
    eventsConformant
      (readFrom initState 0x50 ([0xAA] ++ [0xBB])
        ([(0xAA : Nat)].length + 1)).state
      ((0x08, 0) :: (0x40, 0) ::
        ([(0xAA : Nat)].map (fun b => ((0x50 : Nat), b)) ++
          [((0x58 : Nat), 0xBB)])) = true :=
  C2_master_receive_ack_policy initState 0x50 [0xAA] 0xBB rfl (by decide)

theorem mInv_step (s : MasterState) (code twdr : Nat) (hi : MInv s)
    (hc : mConformant s code = true) :
    MInv (masterStep s code twdr).1 := by
  obtain ⟨h255, hle, hlt⟩ := hi
  unfold mConformant at hc
  split_ifs at hc with h1 h2 h3 h4 h5 h6 h7
  · rcases h1 with h | h <;> subst h
    · rw [masterStep_08]; exact ⟨h255, hle, hlt⟩
    · rw [masterStep_10]; exact ⟨h255, hle, hlt⟩
  · simp only [Bool.and_eq_true, decide_eq_true_eq] at hc
    rcases h2 with h | h | h | h <;> subst h
    · rw [masterStep_18_eq_28, masterStep_28]
      split
      next hd =>
        refine ⟨h255, ?_, ?_⟩
        · simp only
          rw [Nat.mod_eq_of_lt (by omega)]; omega
        · intro hty; rw [hc.2] at hty; simp at hty
      next hd =>
        exact ⟨h255, hle, by intro _ hst; simp at hst⟩
    · rw [masterStep_28]
      split
      next hd =>
        refine ⟨h255, ?_, ?_⟩
        · simp only
          rw [Nat.mod_eq_of_lt (by omega)]; omega
        · intro hty; rw [hc.2] at hty; simp at hty
      next hd =>
        exact ⟨h255, hle, by intro _ hst; simp at hst⟩
    · rw [masterStep_20]
      exact ⟨h255, hle, by intro _ hst; simp at hst⟩
    · rw [masterStep_30]
      exact ⟨h255, hle, by intro _ hst; simp at hst⟩
  · rcases h3 with h | h <;> subst h
    · rw [masterStep_40]
      split
      · exact ⟨h255, hle, hlt⟩
      · exact ⟨h255, hle, hlt⟩
    · rw [masterStep_48]
      exact ⟨h255, hle, by intro _ hst; simp at hst⟩
  · subst h4
    simp only [Bool.and_eq_true, decide_eq_true_eq] at hc
    obtain ⟨⟨hst, hty⟩, hdp⟩ := hc
    rw [masterStep_50]
    have hmod : (s.dataPointer + 1) % 256 = s.dataPointer + 1 :=
      Nat.mod_eq_of_lt (by omega)
    split
    next hd =>
      refine ⟨h255, ?_, ?_⟩
      · simp only; rw [hmod]; omega
      · intro _ _; simp only; rw [hmod]; omega
    next hd =>
      refine ⟨h255, ?_, ?_⟩
      · simp only; rw [hmod]; omega
      · intro _ _; simp only; rw [hmod]; omega
  · subst h5
    simp only [Bool.and_eq_true, Bool.not_eq_eq_eq_not, Bool.not_true,
      decide_eq_true_eq, decide_eq_false_iff_not] at hc
    obtain ⟨⟨hst, hty⟩, hnd⟩ := hc
    have hdp : s.dataPointer < s.nbDataToSend := hlt hty hst
    rw [masterStep_58]
    refine ⟨h255, ?_, ?_⟩
    · simp only; rw [Nat.mod_eq_of_lt (by omega)]; omega
    · intro _ hst2; simp at hst2
  · subst h6
    rw [masterStep_38]
    exact ⟨h255, hle, by intro _ hst; simp at hst⟩
  · rcases h7 with h | h <;> subst h
    · rw [masterStep_F8]
      exact ⟨h255, hle, by intro _ hst; simp at hst⟩
    · rw [masterStep_00]
      exact ⟨h255, hle, by intro _ hst; simp at hst⟩

theorem mReachG_inv (P : Nat → Prop) (hP : ∀ n, P n → 1 ≤ n)
    (s : MasterState) (h : MReachG P s) : MInv s := by
  induction h with
  | startSend s0 a data len h0 =>
    unfold sendTo
    rw [if_pos h0]
    unfold MInv
    dsimp only
    refine ⟨?_, Nat.zero_le _, ?_⟩
    · have := Nat.mod_lt len (show 0 < 256 by omega); omega
    · intro hty; simp at hty
  | startRecv s0 a data len h0 hp =>
    unfold readFrom
    rw [if_pos h0]
    unfold MInv
    dsimp only
    refine ⟨?_, Nat.zero_le _, ?_⟩
    · have := Nat.mod_lt len (show 0 < 256 by omega); omega
    · intro _ _; exact hP _ hp
  | step s code twdr hr hc ih => exact mInv_step s code twdr ih hc

/-- C4 amended.  Restricted to master-send transactions of any length and
master-receive transactions started with length ≥ 1, every reachable state
satisfies `cursor ≤ length`; while a receive transaction is in flight the
cursor is strictly below the length, and the terminal-byte event 0x58,
whenever it is conformant, brings the cursor to exactly the length.  (The
unrestricted claim is refuted by `C4_counterexample`: a master-receive of
length 0 stores the one byte the hardware clocks in and ends with
cursor = 1 > 0.) -/
theorem C4_amended_cursor_invariant (s : MasterState)
    (h : MReachG (fun n => 1 ≤ n) s) (twdr : Nat) :
    s.dataPointer ≤ s.nbDataToSend ∧
    (s.typeOfCommunication = .MASTER_RECEIVED →
      s.driverState = .I2C_MASTER_TRANSMIT →
      s.dataPointer < s.nbDataToSend) ∧
    (mConformant s 0x58 = true →
      (masterStep s 0x58 twdr).1.dataPointer =
        (masterStep s 0x58 twdr).1.nbDataToSend) := by
  obtain ⟨h255, hle, hlt⟩ := mReachG_inv _ (fun _ hn => hn) s h
  refine ⟨hle, hlt, ?_⟩
  intro hc
  unfold mConformant at hc
  norm_num at hc
  obtain ⟨⟨hst, hty⟩, hnd⟩ := hc
  have hdp : s.dataPointer < s.nbDataToSend := hlt hty hst
  rw [masterStep_58]
  simp only
  rw [Nat.mod_eq_of_lt (by omega)]
  omega

/-- Witness for C4 (amended) at a freshly started 2-byte receive. -/
theorem C4_amended_cursor_invariant_witness :
    (readFrom initState 0x50 [] 2).state.dataPointer ≤
      (readFrom initState 0x50 [] 2).state.nbDataToSend ∧
    ((readFrom initState 0x50 [] 2).state.typeOfCommunication =
        .MASTER_RECEIVED →
      (readFrom initState 0x50 [] 2).state.driverState =
        .I2C_MASTER_TRANSMIT →
      (readFrom initState 0x50 [] 2).state.dataPointer <
        (readFrom initState 0x50 [] 2).state.nbDataToSend) ∧
    (mConformant (readFrom initState 0x50 [] 2).state 0x58 = true →
      (masterStep (readFrom initState 0x50 [] 2).state 0x58
          0).1.dataPointer =
        (masterStep (readFrom initState 0x50 [] 2).state 0x58
          0).1.nbDataToSend) :=
  C4_amended_cursor_invariant _
    (MReachG.startRecv initState 0x50 [] 2 rfl (by decide)) 0

/-- C4 counterexample.  The claim includes transactions started with
length 0.  A master-receive of length 0 requests without-acknowledge at
the address-acknowledged event, the hardware still clocks in one byte
(conformant event 0x58), and the handler stores it and increments the
cursor: the reached state has cursor = 1 > 0 = length. -/
theorem C4_counterexample :
    MReachG (fun _ => True)
      (masterStep (masterStep (masterStep
        (readFrom initState 0x50 [] 0).state 0x08 0).1 0x40 0).1
        0x58 0xAB).1 ∧
    ¬ ((masterStep (masterStep (masterStep
        (readFrom initState 0x50 [] 0).state 0x08 0).1 0x40 0).1
        0x58 0xAB).1.dataPointer ≤
      (masterStep (masterStep (masterStep
        (readFrom initState 0x50 [] 0).state 0x08 0).1 0x40 0).1
        0x58 0xAB).1.nbDataToSend) :=
  ⟨MReachG.step _ 0x58 0xAB
    (MReachG.step _ 0x40 0
      (MReachG.step _ 0x08 0
        (MReachG.startRecv initState 0x50 [] 0 rfl trivial)
        (by decide))
      (by decide))
    (by decide),
   by decide⟩

/-- C9.  A facade call on a busy driver leaves the whole context untouched
and performs no bus action; on an idle driver it populates the context —
direction bit 0 for `sendTo` (address byte `2a`), direction bit 1 for
`readFrom` (address byte `2a + 1`), cursor 0, the caller's buffer and
(8-bit) length — and issues exactly a start condition. -/
theorem C9_facade_context (s : MasterState) (a : Nat) (data : List Nat)
    (len : Nat) (ha : a ≤ 127) :
    (s.driverState ≠ .I2C_READY →
      sendTo s a data len = ⟨s, [], 0⟩ ∧
      readFrom s a data len = ⟨s, [], 0⟩) ∧
    (s.driverState = .I2C_READY →
      (sendTo s a data len).state =
        { s with
            typeOfCommunication := .MASTER_SEND
            driverState := .I2C_MASTER_TRANSMIT
            dataPointer := 0
            nbDataToSend := len % 256
            i2cAddress := 2 * a
            i2cBuffer := data } ∧
      (sendTo s a data len).actions = [.startCond] ∧
      (readFrom s a data len).state =
        { s with
            typeOfCommunication := .MASTER_RECEIVED
            driverState := .I2C_MASTER_TRANSMIT
            dataPointer := 0
            nbDataToSend := len % 256
            i2cAddress := 2 * a + 1
            i2cBuffer := data } ∧
      (readFrom s a data len).actions = [.startCond]) := by
  have hm1 : a * 2 % 256 = 2 * a := by omega
  have hm2 : (a * 2 + 1) % 256 = 2 * a + 1 := by omega
  constructor
  · intro hne
    constructor
    · unfold sendTo; rw [if_neg hne]
    · unfold readFrom; rw [if_neg hne]
  · intro heq
    refine ⟨?_, ?_, ?_, ?_⟩
    · unfold sendTo; rw [if_pos heq]; simp only [hm1]
    · unfold sendTo; rw [if_pos heq]
    · unfold readFrom; rw [if_pos heq]; simp only [hm2]
    · unfold readFrom; rw [if_pos heq]

/-- Witness for C9: a busy driver rejects without touching the context; an
idle driver accepts and populates it. -/
theorem C9_facade_context_witness :
    (sendTo { initState with driverState := .I2C_MASTER_TRANSMIT } 3 [5] 1 =
      ⟨{ initState with driverState := .I2C_MASTER_TRANSMIT }, [], 0⟩ ∧
     readFrom { initState with driverState := .I2C_MASTER_TRANSMIT } 3 [5]
        1 =
      ⟨{ initState with driverState := .I2C_MASTER_TRANSMIT }, [], 0⟩) ∧
    ((sendTo initState 3 [5] 1).state =
      { initState with
          typeOfCommunication := .MASTER_SEND
          driverState := .I2C_MASTER_TRANSMIT
          dataPointer := 0
          nbDataToSend := 1 % 256
          i2cAddress := 2 * 3
          i2cBuffer := [5] } ∧
     (sendTo initState 3 [5] 1).actions = [.startCond] ∧
     (readFrom initState 3 [5] 1).state =
      { initState with
          typeOfCommunication := .MASTER_RECEIVED
          driverState := .I2C_MASTER_TRANSMIT
          dataPointer := 0
          nbDataToSend := 1 % 256
          i2cAddress := 2 * 3 + 1
          i2cBuffer := [5] } ∧
     (readFrom initState 3 [5] 1).actions = [.startCond]) :=
  ⟨(C9_facade_context { initState with driverState := .I2C_MASTER_TRANSMIT }
      3 [5] 1 (by decide)).1 (by decide),
   (C9_facade_context initState 3 [5] 1 (by decide)).2 rfl⟩

theorem runSlaveEvents_nil (s : SlaveState) :
    runSlaveEvents s [] = (s, []) := rfl

theorem runSlaveEvents_cons (s : SlaveState) (e : Nat × Nat)
    (evs : List (Nat × Nat)) :
    runSlaveEvents s (e :: evs) =
      ((runSlaveEvents (slaveStep s e.1 e.2).1 evs).1,
       (slaveStep s e.1 e.2).2 ++
         (runSlaveEvents (slaveStep s e.1 e.2).1 evs).2) := rfl

theorem slaveStep_60 (s : SlaveState) (t : Nat) :
    slaveStep s 0x60 t =
      ({ s with typeOfCommunication := .SLAVE_RECEIVED,
                driverState := .I2C_SLAVE_RECEIVE,
                slaveDataPointer := 0 }, [.continueAck]) := rfl

theorem slaveStep_80 (s : SlaveState) (t : Nat) :
    slaveStep s 0x80 t =
      ({ s with
          slaveWrites := s.slaveWrites ++ [(s.slaveDataPointer, t)],
          slaveDataPointer := (s.slaveDataPointer + 1) % 256 },
       [.continueAck]) := rfl

theorem slaveStep_A0 (s : SlaveState) (t : Nat) :
    slaveStep s 0xA0 t =
      ({ s with receiveCalls := s.receiveCalls ++ [s.slaveDataPointer],
                driverState := .I2C_READY },
       [.enableOnly, .continueAck]) := rfl

/-- Data phase of a slave-receive: every byte is stored at the next cursor
slot and acknowledged — with no capacity check — and the stop event
reports the full cursor value to the receive callback. -/
theorem runSlaveRecv_aux (bs : List Nat) :
    ∀ s : SlaveState,
      s.slaveDataPointer + bs.length ≤ 255 →
      runSlaveEvents s
          (bs.map (fun b => ((0x80 : Nat), b)) ++ [((0xA0 : Nat), 0)]) =
        ({ s with
            slaveWrites :=
              s.slaveWrites ++ writeLog s.slaveDataPointer bs,
            slaveDataPointer := s.slaveDataPointer + bs.length,
            receiveCalls :=
              s.receiveCalls ++ [s.slaveDataPointer + bs.length],
            driverState := .I2C_READY },
         List.replicate bs.length BusAction.continueAck ++
           [.enableOnly, .continueAck]) := by
  induction bs with
  | nil =>
    intro s h255
    rw [List.map_nil, List.nil_append, runSlaveEvents_cons, slaveStep_A0]
    simp [runSlaveEvents_nil, writeLog]
  | cons b r ih =>
    intro s h255
    simp only [List.length_cons] at h255
    have hmod : (s.slaveDataPointer + 1) % 256 = s.slaveDataPointer + 1 :=
      Nat.mod_eq_of_lt (by omega)
    rw [List.map_cons, List.cons_append, runSlaveEvents_cons, slaveStep_80,
      hmod]
    have hIH := ih
      { s with
        slaveWrites := s.slaveWrites ++ [(s.slaveDataPointer, b)],
        slaveDataPointer := s.slaveDataPointer + 1 }
      (by simp; omega)
    simp only at hIH
    rw [hIH]
    rw [writeLog_cons]
    simp [List.append_assoc, List.replicate_succ]
    omega

/-- C1 (evidence).  The slave-receive branch has no capacity check: a
transaction delivering `cap + 3` bytes stores all `cap + 3` of them —
including a store at index `cap`, one past the last valid index of
`uint8_t slaveBuffer[cap]` — acknowledges every data byte (no
without-acknowledge fallback), and invokes the receive callback with
length `cap + 3`, not `cap`. -/
theorem C1_slave_receive_overflow (cap : Nat) (bytes : List Nat)
    (s : SlaveState) (hcap : cap ≤ 128) (hlen : bytes.length = cap + 3) :
    (slaveReceiveRun s bytes).1.receiveCalls =
      s.receiveCalls ++ [cap + 3] ∧
    (slaveReceiveRun s bytes).1.slaveWrites =
      s.slaveWrites ++ writeLog 0 bytes ∧
    (cap, bytes.getD cap 0) ∈ writeLog 0 bytes ∧
    (slaveReceiveRun s bytes).2 =
      .continueAck :: (List.replicate (cap + 3) BusAction.continueAck ++
        [.enableOnly, .continueAck]) ∧
    (slaveReceiveRun s bytes).1.driverState = .I2C_READY := by
  unfold slaveReceiveRun
  rw [runSlaveEvents_cons, slaveStep_60]
  have haux := runSlaveRecv_aux bytes
    { s with typeOfCommunication := .SLAVE_RECEIVED,
             driverState := .I2C_SLAVE_RECEIVE,
             slaveDataPointer := 0 }
    (by simp; omega)
  simp only at haux
  rw [haux]
  refine ⟨by simp [hlen], by simp, ?_, by simp [hlen], rfl⟩
  have := mem_writeLog bytes 0 cap (by omega)
  simpa using this

/-- Witness for C1 at capacity 8: eleven bytes of value 7 are all stored
(indices 0-10, so index 8 is past the buffer) and the callback is invoked
with length 11. -/
theorem C1_slave_receive_overflow_witness :
    (slaveReceiveRun initSlaveState (List.replicate 11 7)).1.receiveCalls =
      initSlaveState.receiveCalls ++ [8 + 3] ∧
    (slaveReceiveRun initSlaveState (List.replicate 11 7)).1.slaveWrites =
      initSlaveState.slaveWrites ++ writeLog 0 (List.replicate 11 7) ∧
    (8, (List.replicate 11 7).getD 8 0) ∈
      writeLog 0 (List.replicate 11 7) ∧
    (slaveReceiveRun initSlaveState (List.replicate 11 7)).2 =
      .continueAck :: (List.replicate (8 + 3) BusAction.continueAck ++
        [.enableOnly, .continueAck]) ∧
    (slaveReceiveRun initSlaveState (List.replicate 11 7)).1.driverState =
      .I2C_READY :=
  C1_slave_receive_overflow 8 (List.replicate 11 7) initSlaveState
    (by decide) (by decide)

end I2CDriver
